import Mathlib

/-!
Verification development for the pine_voice Python SDK (pine-voice-python).

The definitions below are a shallow embedding of the SDK's pure logic:

* `src/pine_voice/types.py`        — the dataclasses (`CallStatus`, `CallResult`, ...).
* `src/pine_voice/exceptions.py`   — `raise_api_error` and the error taxonomy.
* `src/pine_voice/_base_client.py` — `build_call_body`, `parse_call_response`.
* `src/pine_voice/calls.py`        — `_result_from_sse_data`, `_progress_from_sse_data`,
  `_progress_from_call_status`, `CallsAPI._poll_until_complete`,
  `CallsAPI._stream_until_complete`, `CallsAPI._sse_connect`, `CallsAPI.create_and_wait`.

Modelling conventions:

* JSON values (the result of `resp.json()` / `json.loads`) are `JVal`; Python's
  `None` is `JVal.jnull`.  JSON numbers are modelled as integers (no call-status
  field in this SDK carries a fractional number).
* Python's dynamic field access `d.get(k, default)` is `jget`/`Option.getD`;
  Python truthiness (`if not data:`, `x or []`) is `pyTruthy`.
* Python dataclasses do not check field types at runtime, so the dataclass
  fields that receive raw `d.get(...)` results are typed `JVal` here.
* Every untyped Python runtime error (`TypeError`, `AttributeError`) is
  collapsed into the single constructor `PyErr.runtime`; the distinctions the
  SDK's control flow actually makes (httpx transport errors vs everything else,
  caught by `except (httpx.TransportError, httpx.StreamError)` vs
  `except Exception`) are kept as separate constructors.
* Network interaction is modelled by scripts: a list of HTTP responses for the
  poll loop, and a list of per-connection SSE scripts (events plus how the
  connection ends) for the stream path.  `json.loads` of an SSE data payload is
  modelled by letting the script carry the parsed `JVal` directly.
* The sync (`CallsAPI`) and async (`AsyncCallsAPI`) classes in `calls.py` are
  line-for-line identical up to `await`; the async variant differs only in how
  it suspends, so one embedding covers both.
-/

/-- JSON value, the shape of everything `resp.json()` / `json.loads` returns.
Python's `None` is `jnull`. -/
inductive JVal where
  | jnull : JVal
  | jbool (b : Bool) : JVal
  | jnum (n : Int) : JVal
  | jstr (s : String) : JVal
  | jarr (xs : List JVal) : JVal
  | jobj (fields : List (String × JVal)) : JVal

/-- Dictionary lookup: Python `d.get(k)` returning `None`-as-`none` when the
key is absent.  JSON objects produced by `json.loads` have unique keys, so
first match suffices. -/
def jget (fields : List (String × JVal)) (k : String) : Option JVal :=
  match fields with
  | [] => none
  | (k2, v) :: rest => if k2 = k then some v else jget rest k

/-- Python truthiness of a JSON value: `None`, `False`, `0`, `""`, `[]`, `{}`
are falsy, everything else truthy. -/
def pyTruthy : JVal → Bool
  | .jnull => false
  | .jbool b => b
  | .jnum n => n != 0
  | .jstr s => !s.isEmpty
  | .jarr xs => !xs.isEmpty
  | .jobj fs => !fs.isEmpty

/-- Python equality of a JSON value against a string literal (used for
`status in TERMINAL_STATUSES`, `code == "RATE_LIMITED"`, ...): only a string
value can compare equal to a string. -/
def jstrIs (v : JVal) (s : String) : Bool :=
  match v with
  | .jstr t => t == s
  | _ => false

/-- Python hashability of a JSON value: a list or dict is unhashable, so a
`frozenset` membership test on it raises `TypeError`; everything else
(`None`, bools, numbers, strings) is hashable. -/
def hashableJ : JVal → Bool
  | .jarr _ => false
  | .jobj _ => false
  | _ => true

/-- Membership in `TERMINAL_STATUSES = frozenset({"completed", "failed",
"cancelled"})` from `_base_client.py`, for a HASHABLE value (only a string
can compare equal to the members).  The `frozenset` test first hashes its
left operand, so every use site guards this with `hashableJ` and raises
`TypeError` on a JSON array/object instead of consulting this function. -/
def isTerminal (v : JVal) : Bool :=
  jstrIs v "completed" || jstrIs v "failed" || jstrIs v "cancelled"

/-- Python `x or []`: `x` when truthy, else the empty list. -/
def truthyList (v : JVal) : JVal :=
  if pyTruthy v then v else .jarr []

/-- types.py `TranscriptEntry`: a single turn in the call transcript. -/
structure TranscriptEntry where
  speaker : JVal
  text : JVal

/-- types.py `TranscriptTurn`: a single speaker turn in a transcript. -/
structure TranscriptTurn where
  speaker : JVal
  text : JVal

/-- types.py `CallStatus`: returned when polling a call that may still be in
progress.  Field order and defaults as in the dataclass
(`duration_seconds=None`, `phase=None`, `partial_transcript=None`). -/
structure CallStatus where
  call_id : JVal
  status : JVal
  duration_seconds : JVal := .jnull
  phase : JVal := .jnull
  partial_transcript : Option (List TranscriptTurn) := none

/-- types.py `CallProgress`: call progress snapshot (non-terminal state). -/
structure CallProgress where
  call_id : JVal
  status : JVal
  phase : JVal := .jnull
  duration_seconds : JVal := .jnull
  partial_transcript : Option (List TranscriptTurn) := none

/-- types.py `CallResult`: returned when a call reaches a terminal state.
Note: exactly the fields the dataclass declares — in particular there is NO
`triage_category` field in types.py, although `parse_call_response` in
`_base_client.py` passes one. -/
structure CallResult where
  call_id : JVal
  status : JVal
  duration_seconds : JVal := .jnum 0
  summary : JVal := .jstr ""
  transcript : List TranscriptEntry := []
  credits_charged : JVal := .jnum 0

/-- Which typed exception class `raise_api_error` raises (exceptions.py):
`AuthError`, `RateLimitError`, `CallError`, or the base `PineVoiceError`. -/
inductive ErrKind where
  | auth
  | rateLimit
  | callErr
  | generic
deriving DecidableEq

/-- A raised, typed `PineVoiceError` (exceptions.py): its class, `code`,
`message` and `status` attributes.  `code` and `message` come from an untyped
dict so they are `JVal`. -/
structure ApiError where
  kind : ErrKind
  code : JVal
  message : JVal
  status : Nat

/-- Every exception the modelled code can raise. -/
inductive PyErr where
  /-- A typed error raised by `raise_api_error`. -/
  | api (e : ApiError)
  /-- `PineVoiceError("EMPTY_RESPONSE", ..., 200)` — the spec's MalformedResponse. -/
  | emptyResponse
  /-- An untyped Python runtime error (`TypeError`, `AttributeError`). -/
  | runtime
  /-- `ValueError("SSE result event did not contain a terminal status")`. -/
  | valueErr
  /-- `httpx.TransportError` / `httpx.StreamError`. -/
  | transport
  /-- `RuntimeError("SSE stream ended without result")`. -/
  | sseEnded

/-- exceptions.py `_CALL_ERROR_CODES` membership for a HASHABLE extracted
`code` (only a string can compare equal to the members).  Like
`TERMINAL_STATUSES`, this is a `frozenset`: the membership test hashes
`code` first, so `raise_api_error` guards this call with `hashableJ` and an
unhashable code (JSON array/object) raises `TypeError` there instead. -/
def isCallErrorCode (code : JVal) : Bool :=
  match code with
  | .jstr s =>
      ["INVALID_PHONE", "DND_BLOCKED", "POLICY_VIOLATION", "INSUFFICIENT_DETAIL",
       "SUBSCRIPTION_REQUIRED", "INSUFFICIENT_CREDITS", "ACCESS_DENIED",
       "NOT_FOUND"].contains s
  | _ => false

/-- The extraction step of `raise_api_error`:
`error = (body or {}).get("error", {})`, followed by the `.get` calls on
`error`.  It yields the fields of the error sub-object when that container is
a dict; `none` models the paths where the very first `.get` attribute lookup
raises `AttributeError` (a truthy non-dict body, or an `error` member that is
present but not a dict, e.g. `null` or a string). -/
def error_sub (body : JVal) : Option (List (String × JVal)) :=
  if pyTruthy body then
    match body with
    | .jobj fs =>
        match (jget fs "error").getD (.jobj []) with
        | .jobj efs => some efs
        | _ => none
    | _ => none
  else some []

/-- exceptions.py `raise_api_error(http_status, body)`: parses the error body
and raises the appropriate typed exception; first match wins, and
`RateLimitError.__init__` hard-codes `status = 429`.  The value returned here
is the exception the Python function raises.  The first two checks are a
tuple membership (`code in ("TOKEN_EXPIRED", "AUTH_REQUIRED")`, pure `==`)
and a `==` comparison, which tolerate any `code`; the third check
`code in _CALL_ERROR_CODES` is a `frozenset` membership that hashes `code`
first, so an unhashable code (JSON array/object) raises `TypeError` there. -/
def raise_api_error (http_status : Nat) (body : JVal) : PyErr :=
  match error_sub body with
  | none => .runtime
  | some efs =>
    let code := (jget efs "code").getD (.jstr "UNKNOWN")
    let message := (jget efs "message").getD (.jstr ("HTTP " ++ toString http_status))
    if http_status == 401 || jstrIs code "TOKEN_EXPIRED" || jstrIs code "AUTH_REQUIRED" then
      .api ⟨.auth, code, message, http_status⟩
    else if http_status == 429 || jstrIs code "RATE_LIMITED" then
      .api ⟨.rateLimit, code, message, 429⟩
    else if hashableJ code then
      (if isCallErrorCode code then .api ⟨.callErr, code, message, http_status⟩
       else .api ⟨.generic, code, message, http_status⟩)
    else
      .runtime

/-- Modelled from the claim's classification table (spec §4.2), taking the
already-extracted `code` and `message`: first match wins over
(401 / TOKEN_EXPIRED / AUTH_REQUIRED → Auth; 429 / RATE_LIMITED → RateLimit
with status forced to 429; the fixed call-error set → CallError; otherwise the
generic error). -/
def classifiedError (http_status : Nat) (code message : JVal) : ApiError :=
  if http_status == 401 || jstrIs code "TOKEN_EXPIRED" || jstrIs code "AUTH_REQUIRED" then
    ⟨.auth, code, message, http_status⟩
  else if http_status == 429 || jstrIs code "RATE_LIMITED" then
    ⟨.rateLimit, code, message, 429⟩
  else if isCallErrorCode code then
    ⟨.callErr, code, message, http_status⟩
  else
    ⟨.generic, code, message, http_status⟩

/-- _base_client.py `build_call_body`: maps SDK parameters to the wire-format
JSON body (modelled as an insertion-ordered association list, like a Python
dict).  `instructions or ""` is Python truthiness; `max_duration_minutes` is
`... if ... is not None else 120`; `caller`/`voice` are added only when not
`None`; `enable_summary` only when `True`.  (`to` is a reserved token in
Lean, so the Python parameter `to` is named `toNum` here.) -/
def build_call_body (toNum name context objective : String)
    (instructions caller voice : Option String)
    (max_duration_minutes : Option Int) (enable_summary : Bool) :
    List (String × JVal) :=
  let body : List (String × JVal) :=
    [("dialed_number", .jstr toNum),
     ("callee_name", .jstr name),
     ("callee_context", .jstr context),
     ("call_objective", .jstr objective),
     ("detailed_instructions", .jstr (match instructions with
        | some s => if s.isEmpty then "" else s
        | none => "")),
     ("max_duration_minutes", .jnum (match max_duration_minutes with
        | some m => m
        | none => 120))]
  let body := match caller with
    | some c => body ++ [("caller", .jstr c)]
    | none => body
  let body := match voice with
    | some v => body ++ [("voice", .jstr v)]
    | none => body
  if enable_summary then body ++ [("enable_summary", .jbool true)] else body

/-- The transcript list comprehension in `parse_call_response`:
`[TranscriptEntry(speaker=t.get("speaker",""), text=t.get("text","")) for t in raw]`.
Iterating anything but a list of dicts reaches `.get` on a non-dict (or
iterates a non-iterable) and raises an untyped runtime error. -/
def buildTranscriptEntries : JVal → Except PyErr (List TranscriptEntry)
  | .jarr xs => entriesOf xs
  | _ => .error .runtime
where
  entriesOf : List JVal → Except PyErr (List TranscriptEntry)
    | [] => .ok []
    | .jobj fs :: rest =>
        match entriesOf rest with
        | .ok es => .ok (⟨(jget fs "speaker").getD (.jstr ""),
                          (jget fs "text").getD (.jstr "")⟩ :: es)
        | .error e => .error e
    | _ :: _ => .error .runtime

/-- _base_client.py `parse_call_response(data)`.  On a falsy body it raises
`EMPTY_RESPONSE`; otherwise it reads `status` and branches on membership in
`TERMINAL_STATUSES`.  The terminal branch builds the transcript and then calls
`CallResult(..., triage_category=data.get("triage_category",""), ...)` — but
the `CallResult` dataclass (types.py) declares no `triage_category` parameter,
so that constructor call raises `TypeError`; the branch therefore never
produces a value.  The non-terminal branch builds a `CallStatus` from
`call_id`/`status`/`duration_seconds`, leaving `phase` and
`partial_transcript` at their `None` defaults.  The branching test
`status in TERMINAL_STATUSES` is a `frozenset` membership: it hashes
`status`, so an unhashable status (JSON array/object) raises `TypeError`
before either branch is taken. -/
def parse_call_response (data : JVal) : Except PyErr (Sum CallStatus CallResult) :=
  match pyTruthy data, data with
  | false, _ => .error .emptyResponse
  | true, .jobj fields =>
    match hashableJ ((jget fields "status").getD (.jstr "")),
          isTerminal ((jget fields "status").getD (.jstr "")) with
    | false, _ => .error .runtime
    | true, true =>
      match buildTranscriptEntries (truthyList ((jget fields "transcript").getD .jnull)) with
      | .error e => .error e
      | .ok _ => .error .runtime
    | true, false =>
      .ok (.inl ⟨(jget fields "call_id").getD (.jstr ""),
                 (jget fields "status").getD (.jstr ""),
                 (jget fields "duration_seconds").getD .jnull,
                 .jnull, none⟩)
  | true, _ => .error .runtime

/-- calls.py `_progress_from_call_status(cs)`: copies the polled `CallStatus`
fields into a `CallProgress` for the callback. -/
def progress_from_call_status (cs : CallStatus) : CallProgress :=
  ⟨cs.call_id, cs.status, cs.phase, cs.duration_seconds, cs.partial_transcript⟩

/-- The partial-transcript list comprehension in `_progress_from_sse_data`. -/
def buildTurns : JVal → Except PyErr (List TranscriptTurn)
  | .jarr xs => turnsOf xs
  | _ => .error .runtime
where
  turnsOf : List JVal → Except PyErr (List TranscriptTurn)
    | [] => .ok []
    | .jobj fs :: rest =>
        match turnsOf rest with
        | .ok ts => .ok (⟨(jget fs "speaker").getD (.jstr ""),
                          (jget fs "text").getD (.jstr "")⟩ :: ts)
        | .error e => .error e
    | _ :: _ => .error .runtime

/-- calls.py `_progress_from_sse_data(raw)` after `json.loads`: builds a
`CallProgress` from the payload; `partial_transcript` is converted only when
the key is present and not `null` (`if partial_raw is not None`). -/
def progress_from_sse_data (d : JVal) : Except PyErr CallProgress :=
  match d with
  | .jobj fs =>
    match (jget fs "partial_transcript").getD .jnull with
    | .jnull =>
        .ok ⟨(jget fs "call_id").getD (.jstr ""),
             (jget fs "status").getD (.jstr ""),
             (jget fs "phase").getD .jnull,
             (jget fs "duration_seconds").getD .jnull, none⟩
    | .jarr xs =>
        match buildTurns (.jarr xs) with
        | .ok ts =>
            .ok ⟨(jget fs "call_id").getD (.jstr ""),
                 (jget fs "status").getD (.jstr ""),
                 (jget fs "phase").getD .jnull,
                 (jget fs "duration_seconds").getD .jnull, some ts⟩
        | .error e => .error e
    | _ => .error .runtime
  | _ => .error .runtime

/-- calls.py `_result_from_sse_data(raw)` after `json.loads`: parses via
`parse_call_response` and requires a `CallResult`, else raises `ValueError`. -/
def result_from_sse_data (d : JVal) : Except PyErr CallResult :=
  match parse_call_response d with
  | .error e => .error e
  | .ok (.inr r) => .ok r
  | .ok (.inl _) => .error .valueErr

/-- One scripted HTTP response to a get-status request: its status code and
parsed JSON body (`jnull` when the response has no content, matching
`data = resp.json() if resp.content else None`). -/
structure HttpResp where
  code : Nat := 200
  body : JVal := .jnull

/-- calls.py `CallsAPI.get(call_id)` on a scripted response:
`check_response` raises the classified error for a status `>= 400`, otherwise
the body goes to `parse_call_response`. -/
def pineGet (r : HttpResp) : Except PyErr (Sum CallStatus CallResult) :=
  if r.code ≥ 400 then .error (raise_api_error r.code r.body)
  else parse_call_response r.body

/-- The `.status` attribute access shared by `CallStatus` and `CallResult`
(`result.status in TERMINAL_STATUSES` in `_poll_until_complete`). -/
def statusOfParsed : Sum CallStatus CallResult → JVal
  | .inl cs => cs.status
  | .inr cr => cr.status

/-- How one run of `_poll_until_complete` ends: Python `return result`
(returning whichever of the two dataclasses `get` produced), an uncaught
exception, or — since the real loop is unbounded — `pending` when the
response script is exhausted without either. -/
inductive PollOutcome where
  | returned (v : Sum CallStatus CallResult)
  | raised (e : PyErr)
  | pending

/-- A finished run of the poll loop: its outcome, the progress snapshots
delivered to `on_progress`, and how many get-status requests were issued. -/
structure PollRun where
  outcome : PollOutcome
  emitted : List CallProgress
  fetches : Nat

/-- calls.py `CallsAPI._poll_until_complete` over a response script: sleep
(not modelled), `get`, return when `result.status` is terminal, else fire
`on_progress` (when given and the result is a `CallStatus`) and repeat.
`result.status in TERMINAL_STATUSES` is again a `frozenset` membership, so
it would raise `TypeError` on an unhashable status (no parsed value can
carry one, but the model keeps the test faithful). -/
def pollGo (onProg : Bool) : List HttpResp → List CallProgress → Nat → PollRun
  | [], emitted, fetches => ⟨.pending, emitted, fetches⟩
  | r :: rest, emitted, fetches =>
    match pineGet r with
    | .error e => ⟨.raised e, emitted, fetches + 1⟩
    | .ok v =>
      match hashableJ (statusOfParsed v), isTerminal (statusOfParsed v) with
      | false, _ => ⟨.raised .runtime, emitted, fetches + 1⟩
      | true, true => ⟨.returned v, emitted, fetches + 1⟩
      | true, false =>
        match v, onProg with
        | .inl cs, true =>
            pollGo onProg rest (emitted ++ [progress_from_call_status cs]) (fetches + 1)
        | _, _ => pollGo onProg rest emitted (fetches + 1)

/-- The polling fallback entry point. -/
def poll_until_complete (polls : List HttpResp) (onProg : Bool) : PollRun :=
  pollGo onProg polls [] 0

/-- How one scripted SSE connection terminates after its events: the server
closes it cleanly, or the transport fails (`httpx.TransportError` /
`httpx.StreamError` out of `iter_lines`). -/
inductive ConnEnd where
  | clean
  | transportErr

/-- One parsed SSE event as `_parse_sse_event` produces it: optional `id:`
value, optional `event:` type tag, and the `json.loads` of the joined `data:`
payload when data lines were present. -/
structure SseEvent where
  eid : Option String := none
  etype : Option String := none
  edata : Option JVal := none

/-- Script for a single SSE connection attempt: the HTTP status of the
response, the parsed error body for a `>= 400` response (`jnull` when the
bytes are not JSON, matching the `except: pass`), the events delivered, and
how the connection ends. -/
structure ConnScript where
  httpCode : Nat := 200
  errBody : JVal := .jnull
  events : List SseEvent := []
  ending : ConnEnd := .clean

/-- The cursor update at the top of the event dispatch in `_sse_connect`:
`if event.get("id"): last_event_id = event["id"]` — only a truthy (non-empty)
id replaces the cursor. -/
def cursorUpdate (eid : Option String) (lastId : Option String) : Option String :=
  match eid with
  | some s => if s.isEmpty then lastId else some s
  | none => lastId

/-- The event loop of calls.py `CallsAPI._sse_connect`: track the cursor from
truthy event ids, return the parsed result on a `result` event with data,
fire `on_progress` on `status`/`transcript` events with data, ignore the
rest; on clean end return `(None, last_event_id)`, on a transport failure the
exception propagates — and the locally updated cursor is lost with it, since
the caller's `result, last_event_id = self._sse_connect(...)` assignment
never happens. -/
def sseEventsLoop (onProg : Bool) :
    List SseEvent → ConnEnd → Option String → List CallProgress →
    Except PyErr (Option CallResult × Option String) × List CallProgress
  | [], ending, lastId, emitted =>
    match ending with
    | .clean => (.ok (none, lastId), emitted)
    | .transportErr => (.error .transport, emitted)
  | e :: rest, ending, lastId, emitted =>
    let lastId2 := cursorUpdate e.eid lastId
    match e.etype, e.edata with
    | some "result", some d =>
      (match result_from_sse_data d with
       | .ok r => (.ok (some r, lastId2), emitted)
       | .error err => (.error err, emitted))
    | some "status", some d =>
      if onProg then
        match progress_from_sse_data d with
        | .ok p => sseEventsLoop onProg rest ending lastId2 (emitted ++ [p])
        | .error err => (.error err, emitted)
      else sseEventsLoop onProg rest ending lastId2 emitted
    | some "transcript", some d =>
      if onProg then
        match progress_from_sse_data d with
        | .ok p => sseEventsLoop onProg rest ending lastId2 (emitted ++ [p])
        | .error err => (.error err, emitted)
      else sseEventsLoop onProg rest ending lastId2 emitted
    | _, _ => sseEventsLoop onProg rest ending lastId2 emitted

/-- calls.py `CallsAPI._sse_connect` on one scripted connection: a `>= 400`
response is classified and raised via `check_response`; otherwise the event
loop runs.  The second component is the list of progress snapshots delivered
before the attempt finished (Python side effects that survive an exception). -/
def sse_connect (conn : ConnScript) (lastId : Option String) (onProg : Bool) :
    Except PyErr (Option CallResult × Option String) × List CallProgress :=
  if conn.httpCode ≥ 400 then (.error (raise_api_error conn.httpCode conn.errBody), [])
  else sseEventsLoop onProg conn.events conn.ending lastId []

/-- The `Last-Event-Id` header `_sse_connect` presents for a given cursor:
set only when the cursor is truthy (`if last_event_id:`). -/
def presentedHeader (lastId : Option String) : Option String :=
  match lastId with
  | some s => if s.isEmpty then none else some s
  | none => none

/-- Which exceptions `_stream_until_complete` catches:
`except (httpx.TransportError, httpx.StreamError)`. -/
def isTransport : PyErr → Bool
  | .transport => true
  | _ => false

/-- calls.py `_MAX_SSE_RECONNECTS`. -/
def MAX_SSE_RECONNECTS : Nat := 1

/-- A finished run of `_stream_until_complete`: its outcome, the
`Last-Event-Id` header presented by each connection that was opened, and the
progress snapshots delivered. -/
structure StreamRun where
  outcome : Except PyErr CallResult
  headers : List (Option String)
  emitted : List CallProgress

/-- An attempt for which the script has no entry: the connection opens and
closes cleanly with no events. -/
def emptyConn : ConnScript := ⟨200, .jnull, [], .clean⟩

/-- The `for attempt in range(_MAX_SSE_RECONNECTS + 1)` loop of calls.py
`CallsAPI._stream_until_complete`, with the remaining attempt indices as the
recursion argument.  A parsed result returns; a clean end without result
continues to the next attempt with the returned cursor; a transport error is
re-raised when no budget is left and otherwise retries WITHOUT a new cursor
(the exception skipped the assignment that would have updated it); any other
exception propagates; an exhausted loop raises
`RuntimeError("SSE stream ended without result")`. -/
def streamGo (conns : List ConnScript) (onProg : Bool) :
    List Nat → Option String → List (Option String) → List CallProgress → StreamRun
  | [], _, headers, emitted => ⟨.error .sseEnded, headers, emitted⟩
  | attempt :: rest, lastId, headers, emitted =>
    match sse_connect (conns.getD attempt emptyConn) lastId onProg with
    | (.ok (some r, _), em) =>
        ⟨.ok r, headers ++ [presentedHeader lastId], emitted ++ em⟩
    | (.ok (none, newLast), em) =>
        streamGo conns onProg rest newLast (headers ++ [presentedHeader lastId]) (emitted ++ em)
    | (.error e, em) =>
      if isTransport e then
        if rest.isEmpty then ⟨.error e, headers ++ [presentedHeader lastId], emitted ++ em⟩
        else streamGo conns onProg rest lastId (headers ++ [presentedHeader lastId]) (emitted ++ em)
      else ⟨.error e, headers ++ [presentedHeader lastId], emitted ++ em⟩

/-- calls.py `CallsAPI._stream_until_complete` over a connection script. -/
def stream_until_complete (conns : List ConnScript) (onProg : Bool) : StreamRun :=
  streamGo conns onProg (List.range (MAX_SSE_RECONNECTS + 1)) none [] []

/-- How the whole wait operation ends, seen by the caller of
`create_and_wait`. -/
inductive WaitOutcome where
  | returned (v : Sum CallStatus CallResult)
  | raised (e : PyErr)
  | pending

/-- Lift a poll outcome to the wait outcome. -/
def pollToWait : PollOutcome → WaitOutcome
  | .returned v => .returned v
  | .raised e => .raised e
  | .pending => .pending

/-- A finished run of the completion waiter: its outcome, the stream headers
presented, the progress snapshots delivered, whether the polling fallback was
entered, and how many get-status requests it issued. -/
structure WaitRun where
  outcome : WaitOutcome
  headers : List (Option String)
  emitted : List CallProgress
  polled : Bool
  pollFetches : Nat

/-- The wait phase of calls.py `CallsAPI.create_and_wait` (after `create`
succeeded): when `use_sse`, try `_stream_until_complete` and on ANY exception
(`except Exception`) degrade to `_poll_until_complete`; otherwise poll
directly. -/
def create_and_wait (useSse : Bool) (conns : List ConnScript)
    (polls : List HttpResp) (onProg : Bool) : WaitRun :=
  if useSse then
    match stream_until_complete conns onProg with
    | ⟨.ok r, hs, em⟩ => ⟨.returned (.inr r), hs, em, false, 0⟩
    | ⟨.error _, hs, em⟩ =>
      let p := poll_until_complete polls onProg
      ⟨pollToWait p.outcome, hs, em ++ p.emitted, true, p.fetches⟩
  else
    let p := poll_until_complete polls onProg
    ⟨pollToWait p.outcome, [], p.emitted, true, p.fetches⟩

/-- Did the poll loop execute a `return result`? -/
def pollIsReturned : PollOutcome → Bool
  | .returned _ => true
  | _ => false

/-- Did the waiter return normally to its caller? -/
def isReturnedW : WaitOutcome → Bool
  | .returned _ => true
  | _ => false

/-- Did a connection attempt hand back a parsed `CallResult`? -/
def connGaveResult : Except PyErr (Option CallResult × Option String) → Bool
  | .ok (some _, _) => true
  | _ => false

/-- Did `_stream_until_complete` return a result (rather than raise)? -/
def waiterGotResult : Except PyErr CallResult → Bool
  | .ok _ => true
  | .error _ => false

/-! ## Structural lemmas shared by several claims -/

/-- A terminal status is one of three strings, hence hashable. -/
lemma isTerminal_hashable (v : JVal) (h : isTerminal v = true) : hashableJ v = true := by
  cases v <;> simp_all [isTerminal, jstrIs, hashableJ]

/-- Whatever `parse_call_response` returns successfully is a `CallStatus`
with a hashable, non-terminal status and untouched
`phase`/`partial_transcript` defaults: an unhashable status raises before
the branch, and the terminal branch always raises (its `CallResult(...)`
call passes the undeclared `triage_category` keyword). -/
lemma parse_ok_shape (d : JVal) (v : Sum CallStatus CallResult)
    (h : parse_call_response d = Except.ok v) :
    ∃ cs : CallStatus, v = Sum.inl cs ∧ hashableJ cs.status = true ∧
      isTerminal cs.status = false ∧
      cs.phase = JVal.jnull ∧ cs.partial_transcript = none := by
  unfold parse_call_response at h
  split at h
  · exact Except.noConfusion h
  · split at h
    · exact Except.noConfusion h
    · split at h
      · exact Except.noConfusion h
      · exact Except.noConfusion h
    · rename_i hhash hterm
      injection h with h1
      exact ⟨_, h1.symm, hhash, hterm, rfl, rfl⟩
  · exact Except.noConfusion h

/-- `parse_ok_shape` lifted through the get-status request. -/
lemma pineGet_ok_shape (r : HttpResp) (v : Sum CallStatus CallResult)
    (h : pineGet r = Except.ok v) :
    ∃ cs : CallStatus, v = Sum.inl cs ∧ hashableJ cs.status = true ∧
      isTerminal cs.status = false ∧
      cs.phase = JVal.jnull ∧ cs.partial_transcript = none := by
  unfold pineGet at h
  split at h
  · exact Except.noConfusion h
  · exact parse_ok_shape _ _ h

/-- The poll loop never reaches its `return result` statement: the guard
needs a terminal status, but `parse_call_response` only ever hands back
non-terminal snapshots. -/
lemma pollGo_not_returned (polls : List HttpResp) :
    ∀ (onProg : Bool) (emitted : List CallProgress) (fetches : Nat),
      pollIsReturned (pollGo onProg polls emitted fetches).outcome = false := by
  induction polls with
  | nil => intro onProg emitted fetches; rfl
  | cons r rest ih =>
    intro onProg emitted fetches
    unfold pollGo
    cases hv : pineGet r with
    | error e => rfl
    | ok v =>
      obtain ⟨cs, rfl, hhash, hterm, _, _⟩ := pineGet_ok_shape r v hv
      simp only [statusOfParsed, hhash, hterm]
      cases onProg with
      | true => exact ih true _ _
      | false => exact ih false _ _

/-- Every snapshot the poll loop appends to its callback stream has the
`phase`/`partial_transcript` defaults. -/
lemma pollGo_emitted (polls : List HttpResp) :
    ∀ (onProg : Bool) (emitted : List CallProgress) (fetches : Nat) (p : CallProgress),
      p ∈ (pollGo onProg polls emitted fetches).emitted →
      p ∈ emitted ∨ (p.phase = JVal.jnull ∧ p.partial_transcript = none) := by
  induction polls with
  | nil => intro onProg emitted fetches p hp; exact Or.inl hp
  | cons r rest ih =>
    intro onProg emitted fetches p hp
    unfold pollGo at hp
    revert hp
    cases hv : pineGet r with
    | error e => intro hp; exact Or.inl hp
    | ok v =>
      obtain ⟨cs, rfl, hhash, hterm, hph, hpt⟩ := pineGet_ok_shape r v hv
      simp only [statusOfParsed, hhash, hterm]
      cases onProg with
      | true =>
        intro hp
        rcases ih true _ _ p hp with hmem | hgood
        · rcases List.mem_append.mp hmem with hmem2 | hone
          · exact Or.inl hmem2
          · refine Or.inr ?_
            have hpe : p = progress_from_call_status cs := List.mem_singleton.mp hone
            subst hpe
            exact ⟨hph, hpt⟩
        · exact Or.inr hgood
      | false =>
        intro hp
        exact ih false _ _ p hp

/-- `_result_from_sse_data` always raises: a terminal payload crashes inside
`parse_call_response`, a non-terminal one fails the `isinstance` check. -/
lemma result_from_sse_data_err (d : JVal) :
    ∃ err, result_from_sse_data d = Except.error err := by
  unfold result_from_sse_data
  cases hp : parse_call_response d with
  | error e => exact ⟨e, rfl⟩
  | ok v =>
    obtain ⟨cs, rfl, _, _, _, _⟩ := parse_ok_shape d v hp
    exact ⟨.valueErr, rfl⟩

/-- No run of the SSE event loop hands back a parsed `CallResult`. -/
lemma sseEventsLoop_no_result (onProg : Bool) (events : List SseEvent) :
    ∀ (ending : ConnEnd) (lastId : Option String) (emitted : List CallProgress),
      connGaveResult (sseEventsLoop onProg events ending lastId emitted).1 = false := by
  induction events with
  | nil =>
    intro ending lastId emitted
    cases ending <;> rfl
  | cons e rest ih =>
    intro ending lastId emitted
    unfold sseEventsLoop
    split
    · rename_i d het hed
      obtain ⟨err, herr⟩ := result_from_sse_data_err d
      rw [herr]
      rfl
    · rename_i d het hed
      cases onProg with
      | true =>
        cases hpd : progress_from_sse_data d with
        | ok p => exact ih ending _ _
        | error err => rfl
      | false => exact ih ending _ _
    · rename_i d het hed
      cases onProg with
      | true =>
        cases hpd : progress_from_sse_data d with
        | ok p => exact ih ending _ _
        | error err => rfl
      | false => exact ih ending _ _
    · exact ih ending _ _

/-- No single connection attempt hands back a parsed `CallResult`. -/
lemma sse_connect_no_result (conn : ConnScript) (lastId : Option String) (onProg : Bool) :
    connGaveResult (sse_connect conn lastId onProg).1 = false := by
  unfold sse_connect
  split
  · rfl
  · exact sseEventsLoop_no_result onProg conn.events conn.ending lastId []

/-- `_stream_until_complete` never returns a result: every attempt either
continues the loop or raises. -/
lemma streamGo_not_ok (attempts : List Nat) :
    ∀ (conns : List ConnScript) (onProg : Bool) (lastId : Option String)
      (headers : List (Option String)) (emitted : List CallProgress),
      waiterGotResult (streamGo conns onProg attempts lastId headers emitted).outcome = false := by
  induction attempts with
  | nil => intro conns onProg lastId headers emitted; rfl
  | cons attempt rest ih =>
    intro conns onProg lastId headers emitted
    unfold streamGo
    rcases hsc : sse_connect (conns.getD attempt emptyConn) lastId onProg with ⟨res, em⟩
    have hno := sse_connect_no_result (conns.getD attempt emptyConn) lastId onProg
    rw [hsc] at hno
    match res, hno with
    | .ok (none, newLast), _ => exact ih conns onProg newLast _ _
    | .error e, _ =>
      cases he : isTransport e with
      | true =>
        cases hre : rest.isEmpty with
        | true => simp [he, hre, waiterGotResult]
        | false => simp only [he, hre, if_true, if_false]; exact ih conns onProg lastId _ _
      | false => simp [he, waiterGotResult]

/-- Lifting `pollToWait` through the returned-check. -/
lemma pollToWait_isReturned (o : PollOutcome) :
    isReturnedW (pollToWait o) = pollIsReturned o := by
  cases o <;> rfl

/-- Unfolding of `parse_call_response` on a non-empty JSON object. -/
lemma parse_cons (f : String × JVal) (fs : List (String × JVal)) :
    parse_call_response (.jobj (f :: fs)) =
      (match hashableJ ((jget (f :: fs) "status").getD (.jstr "")),
             isTerminal ((jget (f :: fs) "status").getD (.jstr "")) with
       | false, _ => .error .runtime
       | true, true =>
         match buildTranscriptEntries (truthyList ((jget (f :: fs) "transcript").getD .jnull)) with
         | .error e => .error e
         | .ok _ => .error .runtime
       | true, false =>
         .ok (.inl ⟨(jget (f :: fs) "call_id").getD (.jstr ""),
                    (jget (f :: fs) "status").getD (.jstr ""),
                    (jget (f :: fs) "duration_seconds").getD .jnull,
                    .jnull, none⟩)) := rfl

/-- One stream-loop step after a clean connection end without a result:
continue with the connection's final cursor. -/
lemma streamGo_cons_clean (conns : List ConnScript) (onProg : Bool) (attempt : Nat)
    (rest : List Nat) (lastId cur : Option String) (headers : List (Option String))
    (emitted em : List CallProgress)
    (h : sse_connect (conns.getD attempt emptyConn) lastId onProg = (Except.ok (none, cur), em)) :
    streamGo conns onProg (attempt :: rest) lastId headers emitted =
      streamGo conns onProg rest cur (headers ++ [presentedHeader lastId]) (emitted ++ em) := by
  conv_lhs => unfold streamGo
  rw [h]

/-- The last attempt of the stream loop always records the header it
presented, however the connection turns out. -/
lemma streamGo_last_headers (conns : List ConnScript) (onProg : Bool) (att : Nat)
    (lastId : Option String) (headers : List (Option String)) (emitted : List CallProgress) :
    (streamGo conns onProg [att] lastId headers emitted).headers =
      headers ++ [presentedHeader lastId] := by
  unfold streamGo
  rcases hsc : sse_connect (conns.getD att emptyConn) lastId onProg with ⟨res, em⟩
  match res with
  | .ok (some r, _) => rfl
  | .ok (none, newLast) => rfl
  | .error e =>
    cases he : isTransport e with
    | true => simp [he]
    | false => simp [he]

/-! ## The claims -/

/-- C1: the claim says that for every response body whose `status` is one of
the three terminal states, `parse_call_response` returns a `CallResult` — not
an error — with missing fields defaulted.  The code does the opposite: the
terminal branch always raises, because it passes the keyword argument
`triage_category` to a `CallResult` dataclass that declares no such field
(`TypeError`).  This theorem evaluates the code on that whole input class:
every body with a terminal status produces an exception. -/
theorem parse_terminal_raises (fields : List (String × JVal))
    (hterm : isTerminal ((jget fields "status").getD (.jstr "")) = true) :
    ∃ e, parse_call_response (.jobj fields) = Except.error e := by
  cases fields with
  | nil => exact absurd hterm (by decide)
  | cons f fs =>
    rw [parse_cons, hterm, isTerminal_hashable _ hterm]
    cases hbt : buildTranscriptEntries
        (truthyList ((jget (f :: fs) "transcript").getD .jnull)) with
    | error e => exact ⟨e, rfl⟩
    | ok es => exact ⟨.runtime, rfl⟩

/-- C1 witness: the minimal terminal body `{"status": "completed"}` makes
`parse_call_response` raise. -/
theorem parse_terminal_raises_witness :
    ∃ e, parse_call_response (.jobj [("status", .jstr "completed")]) = Except.error e :=
  parse_terminal_raises [("status", JVal.jstr "completed")] rfl

/-- C2: the claim's polling scenario — one `in_progress` poll, then a
`completed` poll with `duration_seconds 42` and a one-turn transcript — is
said to make `waitForCompletion` return a `TerminalResult` with duration 42.
Instead the second poll's `parse_call_response` raises `TypeError` (the
`triage_category` keyword has no matching `CallResult` field), so the poll
loop raises after its two fetches and returns nothing. -/
theorem poll_scenario_crashes :
    poll_until_complete
      [⟨200, .jobj [("status", .jstr "in_progress"), ("call_id", .jstr "abc123")]⟩,
       ⟨200, .jobj [("status", .jstr "completed"), ("call_id", .jstr "abc123"),
                    ("duration_seconds", .jnum 42),
                    ("transcript", .jarr [.jobj [("speaker", .jstr "agent"),
                                                 ("text", .jstr "hi")]])]⟩] false =
      ⟨.raised .runtime, [], 2⟩ := rfl

/-- C3 counterexample: the claim quantifies over every body, but a body whose
`error` member is present and not an object — here `{"error": null}` — makes
the extraction itself crash with an untyped `AttributeError`
(`None.get(...)`), not one of the four typed errors. -/
theorem raise_api_error_nonobject_crashes :
    raise_api_error 500 (JVal.jobj [("error", JVal.jnull)]) = PyErr.runtime := rfl

/-- C3 (amended): on a body that is falsy or a dict, with an `error` member
that (after defaulting to `{}`) is a dict, `raise_api_error` raises exactly
one typed error selected by the first-match table over the extracted
`code`/`message` (with their `UNKNOWN` / `HTTP <status>` defaults, and
status forced to 429 for `RateLimitError`) whenever the extracted code is
hashable — in particular always when the error sub-object is absent.  When
the extracted code is an unhashable JSON array/object, only the first two
rules (pure equality tests) can fire: status 401 still gives `AuthError`,
status 429 still gives `RateLimitError`, and otherwise the
`code in _CALL_ERROR_CODES` frozenset test itself raises an untyped
`TypeError`.  Bodies outside this scope (a truthy non-dict body, or a
non-dict `error` member) make the extraction raise an untyped
`AttributeError`. -/
theorem raise_api_error_classifies (st : Nat) (body : JVal) (_hst : 400 ≤ st) :
    (∀ efs : List (String × JVal), error_sub body = some efs →
      (hashableJ ((jget efs "code").getD (.jstr "UNKNOWN")) = true →
        raise_api_error st body =
          PyErr.api (classifiedError st ((jget efs "code").getD (.jstr "UNKNOWN"))
            ((jget efs "message").getD (.jstr ("HTTP " ++ toString st))))) ∧
      (hashableJ ((jget efs "code").getD (.jstr "UNKNOWN")) = false →
        raise_api_error st body =
          (if st == 401 then
            PyErr.api ⟨.auth, (jget efs "code").getD (.jstr "UNKNOWN"),
              (jget efs "message").getD (.jstr ("HTTP " ++ toString st)), st⟩
           else if st == 429 then
            PyErr.api ⟨.rateLimit, (jget efs "code").getD (.jstr "UNKNOWN"),
              (jget efs "message").getD (.jstr ("HTTP " ++ toString st)), 429⟩
           else PyErr.runtime))) ∧
    (error_sub body = none → raise_api_error st body = PyErr.runtime) := by
  constructor
  · intro efs hsub
    constructor
    · intro hcode
      unfold raise_api_error classifiedError
      rw [hsub]
      dsimp only
      simp only [hcode]
      split_ifs <;> rfl
    · intro hcode
      unfold raise_api_error
      rw [hsub]
      dsimp only
      cases hcv : (jget efs "code").getD (.jstr "UNKNOWN") with
      | jnull => rw [hcv] at hcode; exact absurd hcode (by simp [hashableJ])
      | jbool b => rw [hcv] at hcode; exact absurd hcode (by simp [hashableJ])
      | jnum n => rw [hcv] at hcode; exact absurd hcode (by simp [hashableJ])
      | jstr s => rw [hcv] at hcode; exact absurd hcode (by simp [hashableJ])
      | jarr xs =>
        simp only [jstrIs, hashableJ, Bool.or_false]
        split_ifs <;> first | rfl | exact False.elim (by assumption)
      | jobj gs =>
        simp only [jstrIs, hashableJ, Bool.or_false]
        split_ifs <;> first | rfl | exact False.elim (by assumption)
  · intro hnone
    unfold raise_api_error
    rw [hnone]

/-- C3 witness: the spec's table row `(500, "WEIRD")` classified. -/
theorem raise_api_error_classifies_witness :
    raise_api_error 500 (JVal.jobj [("error", JVal.jobj [("code", JVal.jstr "WEIRD")])]) =
      PyErr.api (classifiedError 500 (JVal.jstr "WEIRD")
        (JVal.jstr ("HTTP " ++ toString 500))) :=
  ((raise_api_error_classifies 500
      (JVal.jobj [("error", JVal.jobj [("code", JVal.jstr "WEIRD")])])
      (by decide)).1 [("code", JVal.jstr "WEIRD")] rfl).1 rfl

/-- C4: `build_call_body` always carries the four required fields,
`detailed_instructions` (empty string when instructions are unset) and
`max_duration_minutes` (120 when unset), and carries `caller`, `voice` and
`enable_summary` exactly when they are set. -/
theorem build_call_body_fields (toNum name context objective : String)
    (instructions caller voice : Option String) (maxd : Option Int) (es : Bool)
    (b : List (String × JVal))
    (hb : b = build_call_body toNum name context objective instructions caller voice maxd es) :
    jget b "dialed_number" = some (.jstr toNum) ∧
    jget b "callee_name" = some (.jstr name) ∧
    jget b "callee_context" = some (.jstr context) ∧
    jget b "call_objective" = some (.jstr objective) ∧
    (jget b "detailed_instructions").isSome = true ∧
    (instructions = none → jget b "detailed_instructions" = some (.jstr "")) ∧
    (jget b "max_duration_minutes").isSome = true ∧
    (maxd = none → jget b "max_duration_minutes" = some (.jnum 120)) ∧
    (jget b "caller").isSome = caller.isSome ∧
    (jget b "voice").isSome = voice.isSome ∧
    (jget b "enable_summary").isSome = es := by
  subst hb
  cases instructions <;> cases caller <;> cases voice <;> cases maxd <;> cases es <;>
    refine ⟨rfl, rfl, rfl, rfl, rfl, ?_, rfl, ?_, rfl, rfl, rfl⟩ <;> intro h <;>
    first | rfl | exact Option.noConfusion h

/-- C4 witness: the spec's create scenario with all optional fields unset
defaults the duration to 120. -/
theorem build_call_body_fields_witness :
    jget (build_call_body "+14155551234" "Dr. Smith" "dentist office" "schedule cleaning"
        none none none none false) "max_duration_minutes" = some (.jnum 120) := by
  have h := build_call_body_fields "+14155551234" "Dr. Smith" "dentist office"
    "schedule cleaning" none none none none false
    (build_call_body "+14155551234" "Dr. Smith" "dentist office" "schedule cleaning"
      none none none none false) rfl
  exact h.2.2.2.2.2.2.2.1 rfl

/-- C5 counterexample: the claim's "(any non-terminal status)" generality is
false of the code: `{"status": []}` carries a non-terminal status, yet
`parse_call_response` raises an untyped `TypeError` — the
`status in TERMINAL_STATUSES` frozenset membership hashes the unhashable
list — instead of yielding a `ProgressSnapshot`. -/
theorem parse_unhashable_status_crashes :
    parse_call_response (.jobj [("status", .jarr [])]) = Except.error PyErr.runtime := rfl

/-- C5 (amended): every non-empty body whose `status` value is hashable (not
a JSON array/object) and non-terminal — in particular the strings
`initiated` and `in_progress` — parses to a `CallStatus` snapshot, never a
`CallResult`; an empty body (`None` or `{}`) raises the `EMPTY_RESPONSE`
error (the spec's MalformedResponse) instead of returning a value; a body
whose `status` is a JSON array/object raises an untyped `TypeError` at the
terminal-set membership test. -/
theorem parse_nonterminal_snapshot (fields : List (String × JVal)) :
    (fields ≠ [] → hashableJ ((jget fields "status").getD (.jstr "")) = true →
      isTerminal ((jget fields "status").getD (.jstr "")) = false →
      ∃ cs : CallStatus, parse_call_response (.jobj fields) = Except.ok (Sum.inl cs)) ∧
    (fields ≠ [] → hashableJ ((jget fields "status").getD (.jstr "")) = false →
      parse_call_response (.jobj fields) = Except.error PyErr.runtime) ∧
    parse_call_response JVal.jnull = Except.error PyErr.emptyResponse ∧
    parse_call_response (.jobj []) = Except.error PyErr.emptyResponse := by
  refine ⟨?_, ?_, rfl, rfl⟩
  · intro hne hhash hterm
    cases fields with
    | nil => exact absurd rfl hne
    | cons f fs =>
      rw [parse_cons, hhash, hterm]
      exact ⟨_, rfl⟩
  · intro hne hhash
    cases fields with
    | nil => exact absurd rfl hne
    | cons f fs =>
      rw [parse_cons, hhash]

/-- C5 witness: `{"status": "in_progress"}` parses to a snapshot. -/
theorem parse_nonterminal_snapshot_witness :
    ∃ cs : CallStatus,
      parse_call_response (.jobj [("status", .jstr "in_progress")]) =
        Except.ok (Sum.inl cs) :=
  (parse_nonterminal_snapshot [("status", JVal.jstr "in_progress")]).1 (by simp) rfl rfl

/-- C6: the claim says the waiter returns at most once and only with a
terminal result.  In the code the wait operation can NEVER return at all, on
any server behaviour: the poll path's `return` guard needs a terminal parsed
status but `parse_call_response` raises on every terminal body (the
`triage_category` `TypeError`), and the stream path's `_result_from_sse_data`
always raises for the same reason — so `create_and_wait` either raises or
loops forever, contradicting its own docstring ("Returns: The completed
CallResult") and the spec's contract. -/
theorem waiter_never_returns (useSse : Bool) (conns : List ConnScript)
    (polls : List HttpResp) (onProg : Bool) :
    isReturnedW (create_and_wait useSse conns polls onProg).outcome = false := by
  unfold create_and_wait
  cases useSse with
  | false =>
    rw [if_neg (by simp)]
    rw [pollToWait_isReturned]
    exact pollGo_not_returned polls onProg [] 0
  | true =>
    rw [if_pos rfl]
    have hs := streamGo_not_ok (List.range (MAX_SSE_RECONNECTS + 1)) conns onProg none [] []
    rcases hrun : stream_until_complete conns onProg with ⟨out, hs2, em⟩
    unfold stream_until_complete at hrun
    rw [hrun] at hs
    match out, hs with
    | .error e, _ =>
      rw [pollToWait_isReturned]
      exact pollGo_not_returned polls onProg [] 0

/-- C7: the claim says that when the stream delivers a `result` event before
any stream failure, the polling fallback is never invoked.  In the code,
parsing the result payload raises (terminal payloads hit the
`triage_category` `TypeError`), `create_and_wait` swallows the exception and
enters the polling fallback: here a single clean connection whose only event
is a `result` event still leads to one get-status poll. -/
theorem result_event_still_polls :
    (create_and_wait true
        [⟨200, .jnull,
          [⟨none, some "result",
            some (.jobj [("status", .jstr "completed"), ("call_id", .jstr "abc123")])⟩],
          .clean⟩]
        [⟨200, .jobj [("status", .jstr "in_progress"), ("call_id", .jstr "abc123")]⟩]
        false).polled = true ∧
    (create_and_wait true
        [⟨200, .jnull,
          [⟨none, some "result",
            some (.jobj [("status", .jstr "completed"), ("call_id", .jstr "abc123")])⟩],
          .clean⟩]
        [⟨200, .jobj [("status", .jstr "in_progress"), ("call_id", .jstr "abc123")]⟩]
        false).pollFetches = 1 :=
  ⟨rfl, rfl⟩

/-- C8: the claim says a reconnect after a mid-stream transport failure
presents the id of the last successfully parsed event as `Last-Event-Id`.
In the code the exception propagates out of `_sse_connect` before the
`result, last_event_id = ...` assignment, so the locally tracked cursor is
discarded: after a first connection that parsed an event with id `ev1` and
then failed, the retry presents NO `Last-Event-Id` header (the claim expects
`some "ev1"` in the second position). -/
theorem reconnect_loses_cursor :
    (stream_until_complete
        [⟨200, .jnull, [⟨some "ev1", some "ping", none⟩], .transportErr⟩,
         ⟨200, .jnull, [], .clean⟩] false).headers = [none, none] := rfl

/-- C9 counterexample: the claim says a clean connection end without a
`result` event sends the waiter to the polling fallback WITHOUT opening
another stream connection.  Here the first connection ends cleanly (after an
event with id `e7`, no result), and the code opens a second stream
connection — two headers are presented, the second one even carrying the
cursor. -/
theorem clean_end_reopens_stream :
    (stream_until_complete
        [⟨200, .jnull, [⟨some "e7", some "ping", none⟩], .clean⟩,
         ⟨200, .jnull, [], .clean⟩] false).headers = [none, some "e7"] := rfl

/-- C9 (amended): when a stream connection ends cleanly without delivering a
result, the waiter does not fall back to polling yet: it consumes its
reconnect budget on a second stream connection, presenting the first
connection's final cursor as `Last-Event-Id`; only when that second
connection also yields no result does the stream path raise and the waiter
proceed to the polling fallback. -/
theorem clean_end_retries_then_polls (c0 c1 : ConnScript) (cur : Option String)
    (polls : List HttpResp)
    (h : (sse_connect c0 none false).1 = Except.ok (none, cur)) :
    (stream_until_complete [c0, c1] false).headers = [none, presentedHeader cur] ∧
    ((∃ cur2, (sse_connect c1 cur false).1 = Except.ok (none, cur2)) →
      (create_and_wait true [c0, c1] polls false).polled = true) := by
  rcases hsc : sse_connect c0 none false with ⟨res0, em0⟩
  have hres0 : res0 = Except.ok (none, cur) := by rw [hsc] at h; exact h
  subst hres0
  have h1 : stream_until_complete [c0, c1] false =
      streamGo [c0, c1] false [1] cur [none] em0 := by
    unfold stream_until_complete
    rw [show List.range (MAX_SSE_RECONNECTS + 1) = [0, 1] from rfl]
    have := streamGo_cons_clean [c0, c1] false 0 [1] none cur [] [] em0
      (by rw [show [c0, c1].getD 0 emptyConn = c0 from rfl]; exact hsc)
    simpa using this
  constructor
  · rw [h1]
    have h2 := streamGo_last_headers [c0, c1] false 1 cur [none] em0
    simpa using h2
  · rintro ⟨cur2, h2⟩
    rcases hsc1 : sse_connect c1 cur false with ⟨res1, em1⟩
    have hres1 : res1 = Except.ok (none, cur2) := by rw [hsc1] at h2; exact h2
    subst hres1
    have h3 : streamGo [c0, c1] false [1] cur [none] em0 =
        streamGo [c0, c1] false [] cur2 ([none] ++ [presentedHeader cur]) (em0 ++ em1) :=
      streamGo_cons_clean [c0, c1] false 1 [] cur cur2 [none] em0 em1
        (by rw [show [c0, c1].getD 1 emptyConn = c1 from rfl]; exact hsc1)
    unfold create_and_wait
    rw [if_pos rfl, h1, h3]
    rfl

/-- C9 script: first connection, clean end after one id-carrying event. -/
def c9conn0 : ConnScript := ⟨200, .jnull, [⟨some "e7", some "ping", none⟩], .clean⟩

/-- C9 script: second connection, clean end with no events. -/
def c9conn1 : ConnScript := ⟨200, .jnull, [], .clean⟩

/-- C9 witness: on the concrete two-connection script the retry presents the
cursor `e7` and the waiter then polls. -/
theorem clean_end_retries_then_polls_witness :
    (stream_until_complete [c9conn0, c9conn1] false).headers =
      [none, presentedHeader (some "e7")] ∧
    (create_and_wait true [c9conn0, c9conn1] [] false).polled = true :=
  have h := clean_end_retries_then_polls c9conn0 c9conn1 (some "e7") [] rfl
  ⟨h.1, h.2 ⟨some "e7", rfl⟩⟩

/-- C10: every snapshot the polling fallback delivers to `on_progress` has
`phase = None` and `partial_transcript = None` (here: `jnull` models Python
`None`), whatever the server's status body contains, because the status
parser never populates those `CallStatus` fields. -/
theorem poll_progress_empty_phase (polls : List HttpResp) (onProg : Bool) (p : CallProgress)
    (hp : p ∈ (poll_until_complete polls onProg).emitted) :
    p.phase = JVal.jnull ∧ p.partial_transcript = none := by
  rcases pollGo_emitted polls onProg [] 0 p hp with hmem | hgood
  · exact absurd hmem (List.not_mem_nil p)
  · exact hgood

/-- C10 script: a status body that even carries a `phase` field. -/
def c10poll : HttpResp :=
  ⟨200, .jobj [("status", .jstr "in_progress"), ("call_id", .jstr "abc123"),
               ("phase", .jstr "connected")]⟩

/-- C10 witness value: the snapshot that poll actually delivers. -/
def c10prog : CallProgress := ⟨.jstr "abc123", .jstr "in_progress", .jnull, .jnull, none⟩

/-- C10 witness: the delivered snapshot is a member of the emitted stream and
has the claimed empty fields. -/
theorem poll_progress_empty_phase_witness :
    c10prog ∈ (poll_until_complete [c10poll] true).emitted ∧
    c10prog.phase = JVal.jnull ∧ c10prog.partial_transcript = none := by
  have he : (poll_until_complete [c10poll] true).emitted = [c10prog] := rfl
  have hm : c10prog ∈ (poll_until_complete [c10poll] true).emitted := by
    rw [he]
    exact List.mem_singleton.mpr rfl
  exact ⟨hm, poll_progress_empty_phase [c10poll] true c10prog hm⟩
